import Mathlib

/-!
Verification of the Hypcast HTTP API surface.

This file gives a shallow embedding of the request/response behaviour of
the Hypcast server's HTTP and RPC layer, translated from:

  * `internal/api/rpc/rpc.go` — the current two-stage RPC framework
    (`Handle`/`Handler.ServeHTTP` plus `WithLimitedBodyBuffer`);
  * `internal/api/api.go` — the API handler wiring, the `rpcTune` and
    `rpcStop` RPC methods, `handleConfigChannels`, and the WebSocket
    upgrader's origin check;
  * `cmd/hypcast-server/main.go` — the shutdown path of `main`;
  * an older, superseded single-stage version of the RPC handler
    (`Handler.ServeHTTP` with `readRPCParams`), embedded for the
    refinement comparison.

Requests and responses are pure values; handlers are pure functions from
requests to responses.  The Go standard library collaborators that the
code relies on (JSON unmarshalling, `http.CrossOriginProtection`,
`http.MaxBytesReader`) are modelled at the precision the embedded code
observes: JSON decoding for a parameter type `T` is an abstract function
`String → Option T`, body sizes are UTF-8 byte counts, and the
cross-origin check follows the documented Go 1.25 semantics with no
bypass patterns configured (as produced by `http.NewCrossOriginProtection()`).
-/

set_option maxRecDepth 100000

/-- HTTP request methods, as far as the embedded code distinguishes them.
`get`, `head` and `options` are the methods `http.CrossOriginProtection`
treats as safe; everything else the code inspects is compared against
`post`. -/
inductive Method where
  | get
  | post
  | head
  | options
  | other (name : String)
deriving DecidableEq

/-- A minimal JSON value tree covering the shapes the API emits: strings,
arrays of values, and objects with ordered string keys.  This is the
codomain of the framework's `json.NewEncoder(w).Encode` calls. -/
inductive Json where
  | str (s : String)
  | arr (elems : List Json)
  | obj (fields : List (String × Json))

/-- An HTTP request, reduced to the fields the embedded handlers inspect:
the method, the `Host`, the `Content-Type`, `Sec-Fetch-Site` and `Origin`
headers (empty string models an absent `Sec-Fetch-Site`/`Origin` header,
matching Go's `Header.Get`), and the raw body bytes as a string. -/
structure Request where
  method : Method
  host : String
  contentType : Option String
  secFetchSite : String
  origin : String
  body : String

/-- An HTTP response as the embedded handlers produce it: a status code,
the `Allow` and `Content-Type` headers if set, and the JSON body if one
was encoded. -/
structure Response where
  status : Nat
  allow : Option String
  contentType : Option String
  body : Option Json

/-- The `body any` value an RPC handler function returns (rpc.go,
`HandlerFunc`): `none` models a nil body, `goError` models a Go `error`
value carrying its message, `value` models any other JSON-encodable
value. -/
inductive BodyVal where
  | none
  | goError (message : String)
  | value (json : Json)

/-- rpc.go `httpError`: an error carrying the HTTP status code to respond
with. -/
structure HttpError where
  httpCode : Nat
  message : String
deriving DecidableEq

/-- rpc.go `errReadingBody`. -/
def errReadingBody : HttpError := ⟨500, "unable to read RPC body"⟩

/-- rpc.go `errBodyTooLarge`. -/
def errBodyTooLarge : HttpError := ⟨413, "RPC body exceeded maximum size"⟩

/-- rpc.go `errInvalidBodyType`. -/
def errInvalidBodyType : HttpError := ⟨415, "must have Content-Type: application/json"⟩

/-- rpc.go `errInvalidBody`. -/
def errInvalidBody : HttpError := ⟨400, "unable to decode RPC body"⟩

/-- rpc.go `errorHTTPCode`: every error the framework responds with is an
`httpError`, so `errors.As` always succeeds and yields its code. -/
def errorHTTPCode (e : HttpError) : Nat := e.httpCode

/-- rpc.go `respond`: a Go `error` body is first replaced by
`struct\x7b Error string \x7d\x7bberr.Error()\x7d`; a nil body yields only the status
code; otherwise the body is JSON-encoded with a
`Content-Type: application/json` header. -/
def respond (code : Nat) (body : BodyVal) : Response :=
  match body with
  | BodyVal.goError msg =>
      { status := code, allow := none, contentType := some "application/json",
        body := some (Json.obj [("Error", Json.str msg)]) }
  | BodyVal.none =>
      { status := code, allow := none, contentType := none, body := none }
  | BodyVal.value j =>
      { status := code, allow := none, contentType := some "application/json",
        body := some j }

/-- rpc.go `respondError`. -/
def respondError (e : HttpError) : Response :=
  respond (errorHTTPCode e) (BodyVal.goError e.message)

/-- The response written by rpc.go `respondIfBadMethod` when the request
method is not POST: 405 with an `Allow: POST` header and no body. -/
def methodNotAllowedResponse : Response :=
  { status := 405, allow := some "POST", contentType := none, body := none }

/-- rpc.go `Handler[T]`, bundled with the two stdlib collaborators the
generic code uses for `T`: `decode` models `json.Unmarshal` into `T`
(`none` is a decoding error), and `zero` models Go's zero value
`var params T`. -/
structure Handler (T : Type) where
  decode : String → Option T
  zero : T
  handle : Request → T → Nat × BodyVal

/-- rpc.go `Handler.ServeHTTP` (equivalently the handler produced by
`rpc.Handle`): reject non-POST with 405; on a non-empty body require
`Content-Type: application/json` (else 415) and a JSON body decodable
into `T` (else 400); otherwise invoke the handler function (on the zero
parameter value when the body is empty) and encode its result. -/
def serveHTTP {T : Type} (h : Handler T) (r : Request) : Response :=
  if r.method ≠ Method.post then methodNotAllowedResponse
  else if r.body.utf8ByteSize > 0 then
    if r.contentType ≠ some "application/json" then respondError errInvalidBodyType
    else
      match h.decode r.body with
      | Option.none => respondError errInvalidBody
      | Option.some params => respond (h.handle r params).1 (h.handle r params).2
  else respond (h.handle r h.zero).1 (h.handle r h.zero).2

/-- rpc.go `WithLimitedBodyBuffer`: reject non-POST with 405; read the
body through `http.MaxBytesReader`, which fails with `MaxBytesError`
exactly when the body exceeds `limit` bytes, producing a 413 via
`errBodyTooLarge`; otherwise pass the (buffered) request to the wrapped
handler. -/
def withLimitedBodyBuffer (limit : Nat) (handle : Request → Response) (r : Request) : Response :=
  if r.method ≠ Method.post then methodNotAllowedResponse
  else if r.body.utf8ByteSize > limit then respondError errBodyTooLarge
  else handle r

/-- Modelled from the Go standard library: the host component of an
`Origin` header value of the form `scheme://host`, as extracted by
`url.Parse(origin).Host` inside `http.CrossOriginProtection.Check`. -/
def originHost (origin : String) : String :=
  match origin.splitOn "://" with
  | [_, h] => h
  | _ => ""

/-- Modelled from the Go standard library:
`http.CrossOriginProtection.Check` for the protection value built by
`http.NewCrossOriginProtection()` in api.go (no bypass patterns).  Safe
methods (GET, HEAD, OPTIONS) always pass; otherwise `Sec-Fetch-Site`
values `same-origin` and `none` pass and any other non-empty value
fails; with no `Sec-Fetch-Site`, an absent `Origin` passes and a present
one must have a host equal to the request `Host`.  `true` models
`Check(r) == nil`. -/
def csrfCheck (r : Request) : Bool :=
  match r.method with
  | Method.get => true
  | Method.head => true
  | Method.options => true
  | _ =>
    match r.secFetchSite with
    | "" =>
        if r.origin = "" then true
        else originHost r.origin == r.host
    | "same-origin" => true
    | "none" => true
    | _ => false

/-- api.go `websocketUpgrader.CheckOrigin`: clone the request, overwrite
its method with POST (because `http.CrossOriginProtection` considers the
GET used to start a WebSocket connection safe), and permit the upgrade
exactly when `csrf.Check` passes on the rewritten request. -/
def websocketCheckOrigin (r : Request) : Bool :=
  csrfCheck { r with method := Method.post }

/-- The 403 response written by `http.CrossOriginProtection`'s default
deny handler when `Check` fails (body text omitted: the embedding tracks
only JSON bodies, and no claim inspects this branch's body). -/
def csrfDeniedResponse : Response :=
  { status := 403, allow := none, contentType := none, body := none }

/-- api.go `NewHandler`: the body-size limit passed to
`WithLimitedBodyBuffer` for everything under `/api/rpc/`. -/
def apiRPCBodyLimit : Nat := 1024

/-- api.go `NewHandler`: the composed stack serving `/api/rpc/` paths,
`csrf.Handler(rpc.WithLimitedBodyBuffer(1024, rpcMux))`, applied to one
routed inner handler. -/
def apiRPCEndpoint (inner : Request → Response) (r : Request) : Response :=
  if csrfCheck r then withLimitedBodyBuffer apiRPCBodyLimit inner r
  else csrfDeniedResponse

/-- A Go `error` value as observed by api.go's RPC methods: its message
string, and whether `errors.Is(err, tuner.ErrChannelNotFound)` holds. -/
structure GoError where
  message : String
  isChannelNotFound : Bool

/-- The parameter struct of api.go `rpcTune`:
`struct\x7b ChannelName string \x7d`. -/
structure TuneParams where
  ChannelName : String
deriving DecidableEq

/-- api.go `Handler.rpcTune`, parameterized by the behaviour of the
tuner's `Tune` (package `internal/atsc/tuner`, which is not part of the
embedded sources): `Tune` returns either nil (`Option.none`) or an
error.  An empty `ChannelName` yields 400 `channel name required`
without calling `Tune`; a `Tune` error satisfying
`errors.Is(err, tuner.ErrChannelNotFound)` yields 400; any other `Tune`
error yields 500; success yields 204 with a nil body. -/
def rpcTune (tune : String → Option GoError) (_r : Request) (params : TuneParams) :
    Nat × BodyVal :=
  if params.ChannelName = "" then (400, BodyVal.goError "channel name required")
  else
    match tune params.ChannelName with
    | Option.some e =>
        if e.isChannelNotFound then (400, BodyVal.goError e.message)
        else (500, BodyVal.goError e.message)
    | Option.none => (204, BodyVal.none)

/-- api.go `Handler.rpcStop`, parameterized by the result of the tuner's
`Stop` (package `internal/atsc/tuner`, not part of the embedded
sources): an error yields 500, success yields 204 with a nil body. -/
def rpcStop (stopResult : Option GoError) (_r : Request) (_u : Unit) : Nat × BodyVal :=
  match stopResult with
  | Option.some e => (500, BodyVal.goError e.message)
  | Option.none => (204, BodyVal.none)

/-- The RPC handler api.go registers at `/api/rpc/tune`
(`rpc.Handle(h.rpcTune)`); the zero value of its parameter struct has an
empty `ChannelName`. -/
def tuneHandler (decode : String → Option TuneParams) (tune : String → Option GoError) :
    Handler TuneParams :=
  { decode := decode, zero := { ChannelName := "" }, handle := rpcTune tune }

/-- The RPC handler api.go registers at `/api/rpc/stop`
(`rpc.Handle(h.rpcStop)`); its parameter type is the empty struct,
modelled as `Unit`. -/
def stopHandler (decode : String → Option Unit) (stopResult : Option GoError) :
    Handler Unit :=
  { decode := decode, zero := (), handle := rpcStop stopResult }

/-- A channel record, from the spec's data model (the `internal/atsc`
package is not part of the embedded sources). -/
structure Channel where
  name : String
  frequencyHz : Nat
  modulation : String
  programId : Nat

/-- Modelled from the spec: `tuner.ChannelNames` (package
`internal/atsc/tuner`, absent from the embedded sources) returns a
sequence of the channel names in catalog insertion order, one per
channel; `slices.Collect` in api.go materializes it as a list. -/
def channelNames (catalog : List Channel) : List String :=
  catalog.map Channel.name

/-- api.go `Handler.handleConfigChannels`: add a
`Content-Type: application/json` header and encode the collected channel
names as a JSON array (Go writes status 200 implicitly on the first
body write). -/
def handleConfigChannels (catalog : List Channel) : Response :=
  { status := 200, allow := none, contentType := some "application/json",
    body := some (Json.arr ((channelNames catalog).map Json.str)) }

/-- The externally visible steps main.go can take after its server has
started: shutting the HTTP server down with a timeout in seconds
(`server.Shutdown` with a `context.WithTimeout` context), invoking the
tuner's `Stop`, and terminating the process with an exit code. -/
inductive MainEvent where
  | serverShutdown (timeoutSeconds : Nat)
  | tunerStop
  | exitProcess (code : Nat)
deriving DecidableEq

/-- main.go, `case <-signalCh` branch of `main` (reached on an interrupt
or SIGTERM): the process calls `server.Shutdown` with a 5-second timeout
context and then returns from `main`, which terminates the process with
exit code 0.  No other calls are made on this path. -/
def signalShutdownEvents : List MainEvent :=
  [MainEvent.serverShutdown 5, MainEvent.exitProcess 0]

/-- The older, superseded `readRPCParams` (single-stage rpc.go): read at
most `sizeLimit + 1` body bytes through `io.LimitReader`; an empty body
yields the zero parameter value; a body longer than `sizeLimit` fails
with `errBodyTooLarge`; a non-empty body within the limit requires
`Content-Type: application/json` (else `errInvalidBodyType`) and must
JSON-decode into `T` (else `errInvalidBody`). -/
def readRPCParams {T : Type} (decode : String → Option T) (zero : T)
    (sizeLimit : Nat) (r : Request) : Except HttpError T :=
  if r.body.utf8ByteSize = 0 then Except.ok zero
  else if r.body.utf8ByteSize > sizeLimit then Except.error errBodyTooLarge
  else if r.contentType ≠ some "application/json" then Except.error errInvalidBodyType
  else
    match decode r.body with
    | Option.none => Except.error errInvalidBody
    | Option.some params => Except.ok params

/-- The older, superseded single-stage `Handler.ServeHTTP`: reject
non-POST with 405 and `Allow: POST`; otherwise run `readRPCParams` with
the handler's body-size limit, mapping a parameter error to
`(errorHTTPCode(err), err)` and a success to the handler function's
result, and encode the outcome exactly as `respond` does. -/
def oldServeHTTP {T : Type} (h : Handler T) (sizeLimit : Nat) (r : Request) : Response :=
  if r.method ≠ Method.post then methodNotAllowedResponse
  else
    match readRPCParams h.decode h.zero sizeLimit r with
    | Except.error e => respond (errorHTTPCode e) (BodyVal.goError e.message)
    | Except.ok params => respond (h.handle r params).1 (h.handle r params).2

/-- A concrete JSON decoder for `TuneParams` used to instantiate the
generic theorems: it decodes the literal bodies exercised by the tests,
following `json.Unmarshal` (an object without a `ChannelName` key leaves
the zero value's empty string in place). -/
def sampleTuneDecode : String → Option TuneParams := fun s =>
  if s = "\x7b\x7d" then Option.some { ChannelName := "" }
  else if s = "\x7b\"ChannelName\":\"ABC\"\x7d" then Option.some { ChannelName := "ABC" }
  else if s = "\x7b\"ChannelName\":\"XYZ\"\x7d" then Option.some { ChannelName := "XYZ" }
  else Option.none

/-- A concrete tuner `Tune` behaviour used to instantiate the generic
theorems: channel `ABC` tunes successfully, `XYZ` is unknown, and any
other channel fails internally. -/
def sampleTune : String → Option GoError := fun name =>
  if name = "ABC" then Option.none
  else if name = "XYZ" then Option.some { message := "channel not found", isChannelNotFound := true }
  else Option.some { message := "pipeline failure", isChannelNotFound := false }

/-- A concrete well-formed tune request used to instantiate the generic
theorems. -/
def sampleRequest : Request :=
  { method := Method.post, host := "hypcast.local",
    contentType := some "application/json", secFetchSite := "", origin := "",
    body := "\x7b\"ChannelName\":\"ABC\"\x7d" }

/-- A concrete handler over `Unit` whose observable behaviour is fixed,
used to instantiate the generic theorems at concrete inputs. -/
def sampleUnitHandler : Handler Unit :=
  { decode := fun _ => Option.some (), zero := (), handle := fun _ _ => (204, BodyVal.none) }

/-- Claim C6: for every RPC response, a Go error body is encoded as a
JSON object whose `Error` key holds the error's message; a nil body
yields only the status code with an empty body; and any method other
than POST yields 405 with an `Allow: POST` header before any body
processing (both in the RPC handler and in the body-limiting wrapper,
for every wrapped handler and body). -/
theorem rpc_response_encoding_method_check :
    (∀ (code : Nat) (msg : String), respond code (BodyVal.goError msg) =
      { status := code, allow := none, contentType := some "application/json",
        body := some (Json.obj [("Error", Json.str msg)]) }) ∧
    (∀ code : Nat, respond code BodyVal.none =
      { status := code, allow := none, contentType := none, body := none }) ∧
    (∀ (T : Type) (h : Handler T) (r : Request), r.method ≠ Method.post →
      serveHTTP h r = methodNotAllowedResponse) ∧
    (∀ (limit : Nat) (inner : Request → Response) (r : Request), r.method ≠ Method.post →
      withLimitedBodyBuffer limit inner r = methodNotAllowedResponse) ∧
    methodNotAllowedResponse =
      { status := 405, allow := some "POST", contentType := none, body := none } := by
  refine ⟨fun code msg => rfl, fun code => rfl, ?_, ?_, rfl⟩
  · intro T h r hm
    simp [serveHTTP, hm]
  · intro limit inner r hm
    simp [withLimitedBodyBuffer, hm]

/-- Witness for C6 at concrete inputs: a nil body yields a bare 204
response, and a GET request to an RPC handler yields the 405 response. -/
theorem rpc_response_encoding_method_check_witness :
    respond 204 BodyVal.none =
      { status := 204, allow := none, contentType := none, body := none } ∧
    serveHTTP sampleUnitHandler { sampleRequest with method := Method.get } =
      methodNotAllowedResponse := by
  refine ⟨rpc_response_encoding_method_check.2.1 204, ?_⟩
  exact rpc_response_encoding_method_check.2.2.1 Unit sampleUnitHandler
    { sampleRequest with method := Method.get } (by decide)

/-- Claim C8: a GET to `/api/config/channels` responds with
`Content-Type: application/json` and a body that is the JSON array of
all channel names from the catalog, in catalog insertion order, with one
element per channel. -/
theorem config_channels_lists_catalog (catalog : List Channel) :
    (handleConfigChannels catalog).status = 200 ∧
    (handleConfigChannels catalog).contentType = some "application/json" ∧
    (handleConfigChannels catalog).body =
      some (Json.arr ((channelNames catalog).map Json.str)) ∧
    channelNames catalog = catalog.map Channel.name ∧
    (channelNames catalog).length = catalog.length := by
  refine ⟨rfl, rfl, rfl, rfl, ?_⟩
  simp [channelNames]

/-- Counterexample for claim C2: the signal-triggered shutdown path of
`main` never invokes the tuner's `Stop`, contradicting the claimed
shutdown cascade step. -/
theorem shutdown_no_tunerStop : MainEvent.tunerStop ∉ signalShutdownEvents := by
  decide

/-- Claim C2 (amended): on an interrupt or SIGTERM signal, the process
shuts the HTTP server down with a 5-second timeout (stopping new
connections and waiting up to 5 seconds for in-flight handlers) and then
exits with code 0; the tuner's `Stop` is not invoked on this path. -/
theorem shutdown_events_spec :
    signalShutdownEvents = [MainEvent.serverShutdown 5, MainEvent.exitProcess 0] ∧
    MainEvent.tunerStop ∉ signalShutdownEvents := by
  exact ⟨rfl, by decide⟩

/-- Claim C3: a WebSocket upgrade on the socket paths is permitted if and
only if the same-origin check passes on the request validated as if its
method were POST; in particular a request marked cross-site by
`Sec-Fetch-Site` is always refused — even a GET, which the raw
cross-origin check would consider safe — so no cross-origin upgrade is
permitted unconditionally, while a same-origin request is permitted. -/
theorem websocket_origin_check_as_post :
    (∀ r : Request, websocketCheckOrigin r = csrfCheck { r with method := Method.post }) ∧
    (∀ r : Request, r.secFetchSite = "same-origin" → websocketCheckOrigin r = true) ∧
    (∀ r : Request, r.secFetchSite = "cross-site" → websocketCheckOrigin r = false) ∧
    (∀ r : Request, r.method = Method.get → r.secFetchSite = "cross-site" →
      csrfCheck r = true ∧ websocketCheckOrigin r = false) := by
  refine ⟨fun r => rfl, ?_, ?_, ?_⟩
  · intro r h
    simp [websocketCheckOrigin, csrfCheck, h]
  · intro r h
    simp [websocketCheckOrigin, csrfCheck, h]
  · intro r hm h
    constructor
    · simp [csrfCheck, hm]
    · simp [websocketCheckOrigin, csrfCheck, h]

/-- Witness for C3 at a concrete input: a cross-site GET upgrade request
passes the raw cross-origin check but is refused by the upgrader's
origin check. -/
theorem websocket_origin_check_as_post_witness :
    csrfCheck { sampleRequest with method := Method.get, secFetchSite := "cross-site" } = true ∧
    websocketCheckOrigin
      { sampleRequest with method := Method.get, secFetchSite := "cross-site" } = false := by
  exact websocket_origin_check_as_post.2.2.2
    { sampleRequest with method := Method.get, secFetchSite := "cross-site" } rfl rfl

/-- Claim C4: for every POST to an `/api/rpc/` path (passing the
cross-origin gate), a request body exceeding the configured limit of
1024 bytes is answered with status 413 and JSON body
`\x7b"Error":"RPC body exceeded maximum size"\x7d` without invoking the wrapped
handler (the response is the same fixed value for every `inner`), while
a body of exactly 1024 bytes or fewer is passed through to the wrapped
handler unchanged. -/
theorem rpc_body_size_limit (inner : Request → Response) (r : Request)
    (hc : csrfCheck r = true) (hm : r.method = Method.post) :
    apiRPCBodyLimit = 1024 ∧
    (r.body.utf8ByteSize > 1024 →
      apiRPCEndpoint inner r = respondError errBodyTooLarge ∧
      respondError errBodyTooLarge =
        { status := 413, allow := none, contentType := some "application/json",
          body := some (Json.obj [("Error", Json.str "RPC body exceeded maximum size")]) }) ∧
    (r.body.utf8ByteSize ≤ 1024 → apiRPCEndpoint inner r = inner r) := by
  refine ⟨rfl, ?_, ?_⟩
  · intro hbig
    refine ⟨?_, rfl⟩
    simp [apiRPCEndpoint, hc, withLimitedBodyBuffer, hm, apiRPCBodyLimit, hbig]
  · intro hle
    simp [apiRPCEndpoint, hc, withLimitedBodyBuffer, hm, apiRPCBodyLimit, Nat.not_lt.mpr hle]

/-- Witness for C4 at concrete inputs: a 1025-byte body is rejected with
the 413 error response, and the concrete 22-byte tune request body is
passed through to the wrapped handler. -/
theorem rpc_body_size_limit_witness :
    apiRPCEndpoint (serveHTTP sampleUnitHandler)
        { sampleRequest with body := String.mk (List.replicate 1025 'a') } =
      respondError errBodyTooLarge ∧
    apiRPCEndpoint (serveHTTP sampleUnitHandler) sampleRequest =
      serveHTTP sampleUnitHandler sampleRequest := by
  constructor
  · exact ((rpc_body_size_limit (serveHTTP sampleUnitHandler)
      { sampleRequest with body := String.mk (List.replicate 1025 'a') }
      (by decide) rfl).2.1 (by decide)).1
  · exact (rpc_body_size_limit (serveHTTP sampleUnitHandler) sampleRequest
      (by decide) rfl).2.2 (by decide)

/-- Claim C5: for every POST RPC request with a non-empty body within the
size limit (and passing the cross-origin gate): a missing or incorrect
`Content-Type` header is answered with status 415, and a correct
`Content-Type` with a body that fails to JSON-decode into the handler's
parameter type is answered with status 400; in both cases the response
is a fixed error value independent of the handler function, so the
handler is not invoked. -/
theorem rpc_content_type_and_decode_errors {T : Type} (h : Handler T) (r : Request)
    (hc : csrfCheck r = true) (hm : r.method = Method.post)
    (hpos : 0 < r.body.utf8ByteSize) (hsz : r.body.utf8ByteSize ≤ apiRPCBodyLimit) :
    (r.contentType ≠ some "application/json" →
      apiRPCEndpoint (serveHTTP h) r = respondError errInvalidBodyType ∧
      (respondError errInvalidBodyType).status = 415) ∧
    (r.contentType = some "application/json" → h.decode r.body = Option.none →
      apiRPCEndpoint (serveHTTP h) r = respondError errInvalidBody ∧
      (respondError errInvalidBody).status = 400) := by
  have hle : ¬ (apiRPCBodyLimit < r.body.utf8ByteSize) := Nat.not_lt.mpr hsz
  constructor
  · intro hct
    refine ⟨?_, rfl⟩
    simp [apiRPCEndpoint, hc, withLimitedBodyBuffer, hm, hle, serveHTTP, hpos, hct]
  · intro hct hdec
    refine ⟨?_, rfl⟩
    simp [apiRPCEndpoint, hc, withLimitedBodyBuffer, hm, hle, serveHTTP, hpos, hct, hdec]

/-- Witness for C5 at concrete inputs: the concrete tune request without
a `Content-Type` header is answered with the 415 error response, and the
same request with an undecodable body is answered with the 400 error
response. -/
theorem rpc_content_type_and_decode_errors_witness :
    apiRPCEndpoint (serveHTTP (tuneHandler sampleTuneDecode sampleTune))
        { sampleRequest with contentType := none } = respondError errInvalidBodyType ∧
    apiRPCEndpoint (serveHTTP (tuneHandler sampleTuneDecode sampleTune))
        { sampleRequest with body := "bogus" } = respondError errInvalidBody := by
  constructor
  · exact ((rpc_content_type_and_decode_errors (tuneHandler sampleTuneDecode sampleTune)
      { sampleRequest with contentType := none }
      (by decide) rfl (by decide) (by decide)).1 (by decide)).1
  · exact ((rpc_content_type_and_decode_errors (tuneHandler sampleTuneDecode sampleTune)
      { sampleRequest with body := "bogus" }
      (by decide) rfl (by decide) (by decide)).2 rfl (by decide)).1

/-- Claim C1: for every POST to `/api/rpc/tune` (passing the cross-origin
gate and the size limit) whose body decodes to parameters with a
non-empty `ChannelName`: when the tuner's `Tune` returns nil the
response is 204 with no body; when it returns an error satisfying
`errors.Is(err, tuner.ErrChannelNotFound)` the status is 400 (not 404);
and for any other non-nil error the status is 500. -/
theorem rpcTune_status_mapping
    (decode : String → Option TuneParams) (tune : String → Option GoError)
    (r : Request) (params : TuneParams)
    (hc : csrfCheck r = true) (hm : r.method = Method.post)
    (hpos : 0 < r.body.utf8ByteSize) (hsz : r.body.utf8ByteSize ≤ apiRPCBodyLimit)
    (hct : r.contentType = some "application/json")
    (hdec : decode r.body = Option.some params)
    (hname : params.ChannelName ≠ "") :
    (tune params.ChannelName = Option.none →
      apiRPCEndpoint (serveHTTP (tuneHandler decode tune)) r =
        { status := 204, allow := none, contentType := none, body := none }) ∧
    (∀ e : GoError, tune params.ChannelName = Option.some e → e.isChannelNotFound = true →
      (apiRPCEndpoint (serveHTTP (tuneHandler decode tune)) r).status = 400) ∧
    (∀ e : GoError, tune params.ChannelName = Option.some e → e.isChannelNotFound = false →
      (apiRPCEndpoint (serveHTTP (tuneHandler decode tune)) r).status = 500) := by
  have hle : ¬ (apiRPCBodyLimit < r.body.utf8ByteSize) := Nat.not_lt.mpr hsz
  refine ⟨?_, ?_, ?_⟩
  · intro htune
    simp [apiRPCEndpoint, hc, withLimitedBodyBuffer, hm, hle, serveHTTP, hpos, hct,
      tuneHandler, hdec, rpcTune, hname, htune, respond]
  · intro e htune he
    simp [apiRPCEndpoint, hc, withLimitedBodyBuffer, hm, hle, serveHTTP, hpos, hct,
      tuneHandler, hdec, rpcTune, hname, htune, he, respond]
  · intro e htune he
    simp [apiRPCEndpoint, hc, withLimitedBodyBuffer, hm, hle, serveHTTP, hpos, hct,
      tuneHandler, hdec, rpcTune, hname, htune, he, respond]

/-- Witness for C1 at concrete inputs: tuning to the known channel `ABC`
yields a bare 204; tuning to the unknown channel `XYZ` yields 400;
tuning to a channel whose pipeline fails yields 500. -/
theorem rpcTune_status_mapping_witness :
    apiRPCEndpoint (serveHTTP (tuneHandler sampleTuneDecode sampleTune)) sampleRequest =
      { status := 204, allow := none, contentType := none, body := none } ∧
    (apiRPCEndpoint (serveHTTP (tuneHandler sampleTuneDecode sampleTune))
        { sampleRequest with body := "\x7b\"ChannelName\":\"XYZ\"\x7d" }).status = 400 := by
  constructor
  · exact (rpcTune_status_mapping sampleTuneDecode sampleTune sampleRequest
      { ChannelName := "ABC" } (by decide) rfl (by decide) (by decide) rfl (by decide)
      (by decide)).1 rfl
  · exact (rpcTune_status_mapping sampleTuneDecode sampleTune
      { sampleRequest with body := "\x7b\"ChannelName\":\"XYZ\"\x7d" }
      { ChannelName := "XYZ" } (by decide) rfl (by decide) (by decide) rfl (by decide)
      (by decide)).2.1 { message := "channel not found", isChannelNotFound := true } rfl rfl

/-- Claim C7: for every POST to `/api/rpc/tune` (passing the
cross-origin gate and the size limit) whose decoded parameters have an
empty `ChannelName` — whether the body is empty, so the zero value is
used, or the body decodes to an empty name as for `\x7b\x7d` — the response
is 400 with body `\x7b"Error":"channel name required"\x7d`; the response is a
fixed value independent of the tuner's `Tune` behaviour, so `Tune` is
not invoked. -/
theorem rpcTune_empty_channel_name
    (decode : String → Option TuneParams) (tune : String → Option GoError) (r : Request)
    (hc : csrfCheck r = true) (hm : r.method = Method.post)
    (hsz : r.body.utf8ByteSize ≤ apiRPCBodyLimit)
    (hdec : r.body.utf8ByteSize = 0 ∨
      (r.contentType = some "application/json" ∧
        decode r.body = Option.some { ChannelName := "" })) :
    apiRPCEndpoint (serveHTTP (tuneHandler decode tune)) r =
      { status := 400, allow := none, contentType := some "application/json",
        body := some (Json.obj [("Error", Json.str "channel name required")]) } := by
  have hle : ¬ (apiRPCBodyLimit < r.body.utf8ByteSize) := Nat.not_lt.mpr hsz
  rcases hdec with h0 | ⟨hct, hdec⟩
  · simp [apiRPCEndpoint, hc, withLimitedBodyBuffer, hm, hle, serveHTTP, h0,
      tuneHandler, rpcTune, respond]
  · by_cases hpos : 0 < r.body.utf8ByteSize
    · simp [apiRPCEndpoint, hc, withLimitedBodyBuffer, hm, hle, serveHTTP, hpos, hct,
        tuneHandler, hdec, rpcTune, respond]
    · simp [apiRPCEndpoint, hc, withLimitedBodyBuffer, hm, hle, serveHTTP, hpos,
        tuneHandler, rpcTune, respond]

/-- Witness for C7 at a concrete input: a tune request whose body is the
literal `\x7b\x7d` is answered with 400 and the `channel name required`
error body. -/
theorem rpcTune_empty_channel_name_witness :
    apiRPCEndpoint (serveHTTP (tuneHandler sampleTuneDecode sampleTune))
        { sampleRequest with body := "\x7b\x7d" } =
      { status := 400, allow := none, contentType := some "application/json",
        body := some (Json.obj [("Error", Json.str "channel name required")]) } := by
  exact rpcTune_empty_channel_name sampleTuneDecode sampleTune
    { sampleRequest with body := "\x7b\x7d" } (by decide) rfl (by decide)
    (Or.inr ⟨rfl, by decide⟩)

/-- Claim C9: a POST RPC request with a completely empty body skips both
the `Content-Type` check and JSON decoding — the response is the same
for every `Content-Type` header value and is the encoding of the handler
applied to the zero parameter value — so `POST /api/rpc/stop` with an
empty body and no `Content-Type` succeeds with a bare 204 when the
tuner's `Stop` returns nil. -/
theorem rpc_empty_body_skips_validation
    (decode : String → Option Unit) (stopResult : Option GoError) (r : Request)
    (hc : csrfCheck r = true) (hm : r.method = Method.post) (hbody : r.body = "") :
    (∀ ct : Option String,
      apiRPCEndpoint (serveHTTP (stopHandler decode stopResult))
          { r with contentType := ct } =
        respond (rpcStop stopResult { r with contentType := ct } ()).1
          (rpcStop stopResult { r with contentType := ct } ()).2) ∧
    (stopResult = Option.none →
      apiRPCEndpoint (serveHTTP (stopHandler decode stopResult)) r =
        { status := 204, allow := none, contentType := none, body := none }) := by
  have hz : r.body.utf8ByteSize = 0 := by rw [hbody]; rfl
  constructor
  · intro ct
    have hcc : csrfCheck { r with contentType := ct } = true := hc
    simp only [apiRPCEndpoint, hcc, if_true]
    simp [withLimitedBodyBuffer, hm, serveHTTP, hz, stopHandler, apiRPCBodyLimit]
  · intro hstop
    simp [apiRPCEndpoint, hc, withLimitedBodyBuffer, hm, serveHTTP, hz,
      stopHandler, rpcStop, hstop, respond, apiRPCBodyLimit]

/-- Witness for C9 at a concrete input: `POST /api/rpc/stop` with an
empty body and no `Content-Type` header, against a tuner whose `Stop`
succeeds, yields the fixed handler encoding and a bare 204. -/
theorem rpc_empty_body_skips_validation_witness :
    apiRPCEndpoint (serveHTTP (stopHandler (fun _ => Option.some ()) Option.none))
        { sampleRequest with body := "", contentType := none } =
      respond (rpcStop Option.none { sampleRequest with body := "", contentType := none } ()).1
        (rpcStop Option.none { sampleRequest with body := "", contentType := none } ()).2 ∧
    apiRPCEndpoint (serveHTTP (stopHandler (fun _ => Option.some ()) Option.none))
        { sampleRequest with body := "" } =
      { status := 204, allow := none, contentType := none, body := none } := by
  constructor
  · exact ((rpc_empty_body_skips_validation (fun _ => Option.some ()) Option.none
      { sampleRequest with body := "" } (by decide) rfl rfl).1 none)
  · exact (rpc_empty_body_skips_validation (fun _ => Option.some ()) Option.none
      { sampleRequest with body := "" } (by decide) rfl rfl).2 rfl

/-- Claim C10: for every request (any method, body, size and
`Content-Type`) and every handler, the current two-stage composition
`WithLimitedBodyBuffer(L, Handle(h))` produces exactly the same response
(status, headers and body) as the older single-stage RPC handler with
body-size limit `L`: the method check precedes everything, the size
check (413) precedes the `Content-Type` check (415), which precedes JSON
decoding (400), and a handler result is returned unchanged. -/
theorem two_stage_equiv_single_stage {T : Type} (h : Handler T) (limit : Nat) (r : Request) :
    withLimitedBodyBuffer limit (serveHTTP h) r = oldServeHTTP h limit r := by
  unfold withLimitedBodyBuffer oldServeHTTP readRPCParams serveHTTP
  by_cases hm : r.method = Method.post
  · by_cases hbig : r.body.utf8ByteSize > limit
    · have h0 : ¬ (r.body.utf8ByteSize = 0) := by omega
      simp [hm, hbig, h0, respondError]
    · by_cases h0 : r.body.utf8ByteSize = 0
      · simp [hm, hbig, h0]
      · have hpos : 0 < r.body.utf8ByteSize := Nat.pos_of_ne_zero h0
        by_cases hct : r.contentType = some "application/json"
        · cases hd : h.decode r.body with
          | none => simp [hm, hbig, h0, hpos, hct, hd, respondError]
          | some params => simp [hm, hbig, h0, hpos, hct, hd]
        · simp [hm, hbig, h0, hpos, hct, respondError]
  · simp [hm]
